import Mathlib

/-!
Verification of the poe2-gpt backend core against its specification.

The development shallowly embeds the relevant parts of the source:

* `backend/utils.py` — `map_type`, `convert_schema`,
  `tools_res_to_gemini_func_declaration`, `dump_function_response`,
  `calculate_attacks_per_second`, `query_model`;
* `backend/app.py` — the `retrieve` tool, the `generate` node of the RAG
  graph (trailing-tool-window and conversation filter) and the
  `ask_question_with_tools` orchestrator endpoint.

External collaborators (the Gemini model, the MCP tool registry, the vector
store) are passed in as explicit parameters; their responses are quantified
over in the theorems.  Machine reals produced by Python float arithmetic are
idealised as exact rationals.
-/

/-! ## JSON values and a model of the standard library parser

`dump_function_response` calls the Python standard library `json.loads`.
The function below models it: a fuel-driven recursive-descent parser over
the character list.  It is deliberately permissive (it accepts leading
zeros in numbers, arbitrary escape pairs in strings, and the non-standard
literals accepted by `json.loads` such as `NaN` and `Infinity`), so any
input it rejects is also rejected by `json.loads`.
-/

/-- A parsed JSON value.  Number lexemes are kept verbatim. -/
inductive Json where
  | null
  | bool (b : Bool)
  | num (lexeme : String)
  | str (s : String)
  | arr (elems : List Json)
  | obj (fields : List (String × Json))

/-- Skip JSON whitespace. -/
def jsonSkipWs : List Char → List Char
  | [] => []
  | c :: cs => if c = ' ' ∨ c = '\t' ∨ c = '\n' ∨ c = '\r' then jsonSkipWs cs else c :: cs

/-- Parse the body of a JSON string after the opening quote, returning the
decoded characters and the remainder.  Escape sequences are simplified: a
backslash makes the following character literal. -/
def jsonParseStringBody : List Char → Option (List Char × List Char)
  | [] => none
  | c :: cs =>
    if c = '"' then some ([], cs)
    else if c = '\\' then
      match cs with
      | [] => none
      | e :: cs2 =>
        match jsonParseStringBody cs2 with
        | some (body, rest) => some (e :: body, rest)
        | none => none
    else
      match jsonParseStringBody cs with
      | some (body, rest) => some (c :: body, rest)
      | none => none

/-- Parse a JSON number (permissively), returning its lexeme. -/
def jsonParseNumber (cs : List Char) : Option (Json × List Char) :=
  let sr : List Char × List Char :=
    match cs with
    | '-' :: rest => (['-'], rest)
    | _ => ([], cs)
  let ds := sr.2.takeWhile Char.isDigit
  if ds.isEmpty then none
  else
    let cs2 := sr.2.drop ds.length
    let fr : List Char × List Char :=
      match cs2 with
      | '.' :: r =>
        let fs := r.takeWhile Char.isDigit
        ('.' :: fs, r.drop fs.length)
      | _ => ([], cs2)
    let er : List Char × List Char :=
      match fr.2 with
      | e :: r =>
        if e = 'e' ∨ e = 'E' then
          match r with
          | s :: r2 =>
            if s = '+' ∨ s = '-' then
              let es := r2.takeWhile Char.isDigit
              (e :: s :: es, r2.drop es.length)
            else
              let es := r.takeWhile Char.isDigit
              (e :: es, r.drop es.length)
          | [] => ([e], r)
        else ([], fr.2)
      | [] => ([], fr.2)
    some (.num (String.mk (sr.1 ++ ds ++ fr.1 ++ er.1)), er.2)

mutual

/-- Parse one JSON value.  The fuel bounds nesting depth. -/
def jsonParseValue : Nat → List Char → Option (Json × List Char)
  | 0, _ => none
  | fuel + 1, cs0 =>
    let cs := jsonSkipWs cs0
    match cs with
    | [] => none
    | c :: rest =>
      if c = '"' then
        match jsonParseStringBody rest with
        | some (body, rest2) => some (.str (String.mk body), rest2)
        | none => none
      else if c = '[' then jsonParseArrayRest fuel rest
      else if c = '\x7b' then jsonParseObjRest fuel rest
      else if "null".toList.isPrefixOf cs then some (.null, cs.drop 4)
      else if "true".toList.isPrefixOf cs then some (.bool true, cs.drop 4)
      else if "false".toList.isPrefixOf cs then some (.bool false, cs.drop 5)
      else if "NaN".toList.isPrefixOf cs then some (.num "NaN", cs.drop 3)
      else if "Infinity".toList.isPrefixOf cs then some (.num "Infinity", cs.drop 8)
      else if "-Infinity".toList.isPrefixOf cs then some (.num "-Infinity", cs.drop 9)
      else jsonParseNumber cs

/-- Parse the remainder of a JSON array after the opening bracket. -/
def jsonParseArrayRest : Nat → List Char → Option (Json × List Char)
  | 0, _ => none
  | fuel + 1, cs =>
    match jsonSkipWs cs with
    | ']' :: rest => some (.arr [], rest)
    | cs1 =>
      match jsonParseElems fuel cs1 with
      | some (xs, rest) => some (.arr xs, rest)
      | none => none

/-- Parse one or more comma-separated array elements followed by the
closing bracket. -/
def jsonParseElems : Nat → List Char → Option (List Json × List Char)
  | 0, _ => none
  | fuel + 1, cs =>
    match jsonParseValue fuel cs with
    | some (v, rest) =>
      match jsonSkipWs rest with
      | ',' :: r2 =>
        match jsonParseElems fuel r2 with
        | some (vs, rest2) => some (v :: vs, rest2)
        | none => none
      | ']' :: r2 => some ([v], r2)
      | _ => none
    | none => none

/-- Parse the remainder of a JSON object after the opening brace. -/
def jsonParseObjRest : Nat → List Char → Option (Json × List Char)
  | 0, _ => none
  | fuel + 1, cs =>
    match jsonSkipWs cs with
    | '\x7d' :: rest => some (.obj [], rest)
    | cs1 =>
      match jsonParseMembers fuel cs1 with
      | some (fs, rest) => some (.obj fs, rest)
      | none => none

/-- Parse one or more comma-separated object members followed by the
closing brace. -/
def jsonParseMembers : Nat → List Char → Option (List (String × Json) × List Char)
  | 0, _ => none
  | fuel + 1, cs =>
    match jsonSkipWs cs with
    | '"' :: rest =>
      match jsonParseStringBody rest with
      | some (key, rest2) =>
        match jsonSkipWs rest2 with
        | ':' :: rest3 =>
          match jsonParseValue fuel rest3 with
          | some (v, rest4) =>
            match jsonSkipWs rest4 with
            | ',' :: r5 =>
              match jsonParseMembers fuel r5 with
              | some (fs, rest5) => some ((String.mk key, v) :: fs, rest5)
              | none => none
            | '\x7d' :: r5 => some ([(String.mk key, v)], r5)
            | _ => none
          | none => none
        | _ => none
      | none => none
    | _ => none

end

/-- Model of `json.loads`: parse a complete JSON document, requiring the
whole input to be consumed. -/
def jsonLoads (s : String) : Option Json :=
  match jsonParseValue (s.length + 1) s.toList with
  | some (j, rest) => if (jsonSkipWs rest).isEmpty then some j else none
  | none => none

/-! ## MCP tool results and `dump_function_response` (utils.py lines 60-76) -/

/-- One element of an MCP `CallToolResult.content` list.  Only the `type`
discriminator and the text payload matter to `dump_function_response`. -/
structure ContentItem where
  type : String
  text : String
deriving DecidableEq

/-- The MCP tool-call result consumed by `dump_function_response`. -/
structure CallToolResult where
  isError : Bool
  content : List ContentItem
deriving DecidableEq

/-- The exceptions `dump_function_response` can raise. -/
inductive DumpErr where
  | toolErr (msg : String)
  | assertionErr (msg : String)
  | notJson (msg : String)
  | indexErr
deriving DecidableEq

/-- Shallow embedding of `dump_function_response` (utils.py lines 60-76):
raise on `isError`, index the first content element, assert it is text,
and parse its text as JSON; a parse failure raises an exception whose
message embeds the raw payload. -/
def dump_function_response (function_res : CallToolResult) : Except DumpErr Json :=
  if function_res.isError then
    .error (.toolErr "Something went wrong when calling function")
  else
    match function_res.content with
    | [] => .error .indexErr
    | c :: _ =>
      if c.type = "text" then
        match jsonLoads c.text with
        | some j => .ok j
        | none =>
          .error (.notJson ("Respone from function call was not valid JSON: " ++ c.text))
      else
        .error (.assertionErr "Function res content must be a text content")

/-! ## Schema adapter (utils.py lines 10-57)

Both the JSON-schema dictionaries fed to `convert_schema` and the
`google.genai.types.Schema` values it produces are represented by one
recursive tree type `SchemaTree`; a produced `types.Schema` is identified
with the tree whose `typeTag` is the string value of its `types.Type`
member (`"STRING"`, `"OBJECT"`, ..., `"TYPE_UNSPECIFIED"`).  Fields other
than `type`, `properties` and `items` are passed through opaquely in
`extra`. -/

/-- A JSON-schema-like tree / provider schema. -/
inductive SchemaTree where
  | node (typeTag : Option String)
         (properties : Option (List (String × SchemaTree)))
         (items : Option SchemaTree)
         (extra : List (String × String))

/-- The `type` discriminator of a schema node. -/
def SchemaTree.typeTag : SchemaTree → Option String
  | .node t _ _ _ => t

/-- Shallow embedding of `map_type` (utils.py lines 10-20): the dictionary
lookup with default `types.Type.TYPE_UNSPECIFIED`, with each `types.Type`
member rendered as its string value. -/
def map_type (t : String) : String :=
  if t = "string" then "STRING"
  else if t = "integer" then "INTEGER"
  else if t = "number" then "NUMBER"
  else if t = "boolean" then "BOOLEAN"
  else if t = "array" then "ARRAY"
  else if t = "object" then "OBJECT"
  else "TYPE_UNSPECIFIED"

mutual

/-- Shallow embedding of `convert_schema` (utils.py lines 23-43): a node
without a `type` field raises `ValueError`; for tag `"object"` the
`properties` values are recursively converted when present; for tag
`"array"` the `items` node is recursively converted when present; all
other fields pass through, and the result carries `map_type` of the
popped tag. -/
def convert_schema : SchemaTree → Except String SchemaTree
  | .node none _ _ _ => .error "types.Schema missing type field"
  | .node (some tag) props items extra =>
    match (if tag = "object" then convert_props_opt props else .ok props) with
    | .error e => .error e
    | .ok props2 =>
      match (if tag = "array" then convert_items_opt items else .ok items) with
      | .error e => .error e
      | .ok items2 => .ok (.node (some (map_type tag)) props2 items2 extra)

/-- Convert the `properties` mapping when it is present. -/
def convert_props_opt :
    Option (List (String × SchemaTree)) → Except String (Option (List (String × SchemaTree)))
  | none => .ok none
  | some ps =>
    match convert_props ps with
    | .error e => .error e
    | .ok cs => .ok (some cs)

/-- Convert each property value in order, preserving keys. -/
def convert_props : List (String × SchemaTree) → Except String (List (String × SchemaTree))
  | [] => .ok []
  | (n, s) :: rest =>
    match convert_schema s with
    | .error e => .error e
    | .ok c =>
      match convert_props rest with
      | .error e => .error e
      | .ok cs => .ok ((n, c) :: cs)

/-- Convert the `items` schema when it is present. -/
def convert_items_opt : Option SchemaTree → Except String (Option SchemaTree)
  | none => .ok none
  | some it =>
    match convert_schema it with
    | .error e => .error e
    | .ok c => .ok (some c)

end

/-- An MCP tool spec as returned by `list_tools`. -/
structure MCPTool where
  name : String
  description : Option String
  inputSchema : SchemaTree

/-- A Gemini function declaration. -/
structure FunctionDeclaration where
  description : Option String
  name : String
  parameters : SchemaTree

/-- Shallow embedding of `tools_res_to_gemini_func_declaration`
(utils.py lines 46-57): convert every discovered tool spec. -/
def tools_res_to_gemini_func_declaration
    (tools : List MCPTool) : Except String (List FunctionDeclaration) :=
  match tools with
  | [] => .ok []
  | t :: rest =>
    match convert_schema t.inputSchema with
    | .error e => .error e
    | .ok p =>
      match tools_res_to_gemini_func_declaration rest with
      | .error e => .error e
      | .ok ds => .ok ({ description := t.description, name := t.name, parameters := p } :: ds)

/-! ## `query_model` (utils.py lines 105-134) and the Gemini data model -/

/-- A part of a Gemini content block as built by the orchestrator. -/
inductive GPart where
  | text (s : String)
  | functionCall (name : String) (args : List (String × Json))
  | functionResponse (name : String) (response : Json)

/-- A Gemini content block. -/
structure GContent where
  role : String
  parts : List GPart

/-- A `types.Tool` value: a bundle of function declarations. -/
structure GTool where
  function_declarations : List FunctionDeclaration

/-- The `types.GenerateContentConfig` built by `query_model`. -/
structure GenerateContentConfig where
  system_instruction : String
  tools : Option (List GTool)

/-- The full request handed to `client.models.generate_content`. -/
structure GenerateContentRequest where
  model : String
  contents : List GContent
  config : GenerateContentConfig

/-- The system instruction inside `query_model` (abbreviated; its exact
wording is irrelevant to every claim). -/
def query_model_system_instruction : String :=
  "You are a helpful assistant that plays Path of Exile 2 and knows the game in depth."

/-- Shallow embedding of `query_model` (utils.py lines 105-134) as the
request value it hands to `client.models.generate_content`.  The line
passing `tools=[types.Tool(function_declarations=function_declarations)]`
into the config is commented out in the source, so the built config has no
tools and the `function_declarations` parameter is dropped. -/
def query_model (content : List GContent)
    (function_declarations : List FunctionDeclaration) : GenerateContentRequest :=
  { model := "gemini-2.0-flash"
  , contents := content
  , config :=
    { system_instruction := query_model_system_instruction
    , tools := none } }

/-! ## The `ask_question_with_tools` orchestrator (app.py lines 153-227) -/

/-- A Gemini function-call request inside a response part. -/
structure FunctionCall where
  name : Option String
  args : Option (List (String × Json))

/-- A part of a Gemini response candidate. -/
structure RPart where
  functionCall : Option FunctionCall

/-- The content of a response candidate. -/
structure CandidateContent where
  parts : Option (List RPart)

/-- One response candidate. -/
structure Candidate where
  content : Option CandidateContent

/-- A `GenerateContentResponse`: aggregated text plus candidates. -/
structure GenResponse where
  text : Option String
  candidates : List Candidate

/-- Python truthiness of an optional string (`None` and `""` are falsy). -/
def truthyText : Option String → Bool
  | none => false
  | some s => !(s == "")

/-- Python truthiness of an optional argument mapping (`None` and the
empty dict are falsy). -/
def truthyArgs : Option (List (String × Json)) → Bool
  | none => false
  | some l => !l.isEmpty

/-- The possible terminations of one `/ask-with-tools` request. -/
inductive Outcome where
  | answer (text : String)
  | assertionFailure (msg : String)
  | toolFailure (msg : String)
  | notJsonFailure (msg : String)
  | indexFailure
  | noTextFailure (detail : String)
deriving DecidableEq

/-- How a `dump_function_response` exception surfaces from the endpoint. -/
def outcome_of_dump_err : DumpErr → Outcome
  | .toolErr m => .toolFailure m
  | .assertionErr m => .assertionFailure m
  | .notJson m => .notJsonFailure m
  | .indexErr => .indexFailure

/-- The observable effects of one `/ask-with-tools` request: its outcome,
the tool-registry invocations it performed (name and args of each
`session.call_tool`), and the requests handed to the model. -/
structure ExecResult where
  outcome : Outcome
  toolInvocations : List (String × List (String × Json))
  requests : List GenerateContentRequest

/-- Shallow embedding of `ask_question_with_tools` (app.py lines 153-227).
The model is an external collaborator: `r1` is its response to the first
`query_model` call and `r2` its response to the second (when one is
made); `toolRes` is the registry's reply to the single `call_tool` (when
one is made).  The control flow mirrors the source line by line: return
the first response's text if truthy; assert the candidate/content/part
shape; on a function call with a truthy name, assert the args are truthy,
call the tool, fold the parsed result back into the content and re-query
the model once; any remaining case raises HTTP 500 with detail
`"Ai response did not have text nor function calls"`. -/
def ask_question_with_tools (question : String)
    (declarations : List FunctionDeclaration)
    (r1 r2 : GenResponse) (toolRes : CallToolResult) : ExecResult :=
  let content0 : List GContent := [⟨"user", [.text question]⟩]
  let req1 := query_model content0 declarations
  if truthyText r1.text then
    ⟨.answer (r1.text.getD ""), [], [req1]⟩
  else
    match r1.candidates with
    | [] => ⟨.assertionFailure "AI Response must have candidates", [], [req1]⟩
    | cand :: _ =>
      match cand.content with
      | none => ⟨.assertionFailure "First AI Response must have content", [], [req1]⟩
      | some c =>
        match c.parts with
        | some [part] =>
          match part.functionCall with
          | some fc =>
            if truthyText fc.name then
              if truthyArgs fc.args then
                let name := fc.name.getD ""
                let args := fc.args.getD []
                match dump_function_response toolRes with
                | .error e => ⟨outcome_of_dump_err e, [(name, args)], [req1]⟩
                | .ok j =>
                  let content1 := content0 ++
                    [⟨"model", [.functionCall name args]⟩,
                     ⟨"tool", [.functionResponse name j]⟩]
                  let req2 := query_model content1 declarations
                  if truthyText r2.text then
                    ⟨.answer (r2.text.getD ""), [(name, args)], [req1, req2]⟩
                  else
                    ⟨.noTextFailure "Ai response did not have text nor function calls",
                      [(name, args)], [req1, req2]⟩
              else
                ⟨.assertionFailure "Function call must have name and args", [], [req1]⟩
            else
              ⟨.noTextFailure "Ai response did not have text nor function calls", [], [req1]⟩
          | none =>
            ⟨.noTextFailure "Ai response did not have text nor function calls", [], [req1]⟩
        | _ => ⟨.assertionFailure "Content must have exactly one part", [], [req1]⟩

/-! ## The RAG graph: `retrieve` and `generate` (app.py lines 42-99) -/

/-- A chunk returned by the vector store.  The `metadata` field stands for
the rendered form of the chunk's metadata mapping, which `retrieve` only
ever interpolates into a string. -/
structure Document where
  metadata : String
  page_content : String
deriving DecidableEq

/-- Shallow embedding of the `retrieve` tool (app.py lines 42-49): query
the store with `k = 15` and serialize each returned chunk; the tool
returns the serialized text together with the raw chunks. -/
def retrieve (similarity_search : String → Nat → List Document)
    (query : String) : String × List Document :=
  let context := similarity_search query 15
  let serialized := String.intercalate "\n\n"
    (context.map (fun doc => "Source: " ++ doc.metadata ++ "\n Content: " ++ doc.page_content))
  (serialized, context)

/-- A pending tool-call request attached to an `ai` message. -/
structure ToolCall where
  name : String
deriving DecidableEq

/-- A LangChain conversation message: its `type` tag (`"human"`, `"ai"`,
`"system"` or `"tool"`), its content, and (for `ai` messages) its pending
tool calls. -/
structure Message where
  type : String
  content : String
  tool_calls : List ToolCall
deriving DecidableEq

/-- The trailing-tool-window of `generate` (app.py lines 68-74): walk the
reversed message list collecting messages while their type is `"tool"`,
stopping at the first other message, then restore the original order. -/
def recent_tool_messages (msgs : List Message) : List Message :=
  ((msgs.reverse).takeWhile (fun m => m.type == "tool")).reverse

/-- The `docs_content` built by `generate` (app.py line 77): the window's
contents joined by blank lines. -/
def docs_content (msgs : List Message) : String :=
  String.intercalate "\n\n" ((recent_tool_messages msgs).map (fun m => m.content))

/-- The conversation filter of `generate` (app.py lines 90-95): keep
`human` and `system` messages, and `ai` messages with no pending tool
calls. -/
def conversation_messages (msgs : List Message) : List Message :=
  msgs.filter (fun m =>
    (m.type == "human" || m.type == "system") || (m.type == "ai" && m.tool_calls.isEmpty))

/-- The fixed part of the `generate` system message (abbreviated; its
exact wording is irrelevant to every claim). -/
def generate_preamble : String :=
  "You are an assistant for question-answering tasks. Use the following pieces of retrieved context to answer the question."

/-- The system message content of `generate` (app.py lines 78-88). -/
def system_message_content (msgs : List Message) : String :=
  generate_preamble ++ "\n\n" ++ docs_content msgs

/-- The final prompt built by `generate` (app.py line 96): the system
message prepended to the filtered conversation. -/
def generate_prompt (msgs : List Message) : List Message :=
  ⟨"system", system_message_content msgs, []⟩ :: conversation_messages msgs

/-! ## Ingestion unit conversion (utils.py lines 79-96) -/

/-- Round-half-to-even on a rational, the rounding used by the Python
built-in `round`. -/
def roundHalfEven (q : ℚ) : ℤ :=
  if q - (⌊q⌋ : ℚ) < 1/2 then ⌊q⌋
  else if (1:ℚ)/2 < q - (⌊q⌋ : ℚ) then ⌊q⌋ + 1
  else if ⌊q⌋ % 2 = 0 then ⌊q⌋ else ⌊q⌋ + 1

/-- `round(x, 2)`: round to two decimal places. -/
def roundTo2 (q : ℚ) : ℚ := ((roundHalfEven (q * 100) : ℤ) : ℚ) / 100

/-- Shallow embedding of `calculate_attacks_per_second` (utils.py lines
79-96), with Python float arithmetic idealised as exact rationals: a
non-positive duration raises `ValueError`, otherwise the result is
`1000 / duration` rounded to two decimal places. -/
def calculate_attacks_per_second (attack_duration_ms : Int) : Except String ℚ :=
  if attack_duration_ms ≤ 0 then .error "Attack duration must be positive"
  else .ok (roundTo2 (1000 / (attack_duration_ms : ℚ)))

/-! ## Concrete example values used by witnesses and counterexamples -/

/-- A first model response carrying exactly one function-call part with a
truthy name and non-empty args. -/
def exToolCallResponse : GenResponse :=
  ⟨none, [⟨some ⟨some [⟨some ⟨some "get_items", some [("type", Json.str "bow")]⟩⟩]⟩⟩]⟩

/-- A first model response like `exToolCallResponse` but with an empty
args mapping. -/
def exEmptyArgsResponse : GenResponse :=
  ⟨none, [⟨some ⟨some [⟨some ⟨some "get_items", some []⟩⟩]⟩⟩]⟩

/-- A model response with neither text nor candidates. -/
def exNoTextResponse : GenResponse := ⟨none, []⟩

/-- A tool result whose textual payload is valid JSON. -/
def exJsonToolRes : CallToolResult := ⟨false, [⟨"text", "null"⟩]⟩

/-- A tool result whose textual payload is not valid JSON. -/
def exNonJsonToolRes : CallToolResult := ⟨false, [⟨"text", "oops not json"⟩]⟩

/-! ## Theorems -/

/-- Helper: round-half-to-even lands within one half of its argument. -/
theorem roundHalfEven_close (x : ℚ) : |(roundHalfEven x : ℚ) - x| ≤ 1/2 := by
  have h1 : (⌊x⌋ : ℚ) ≤ x := Int.floor_le x
  have h2 : x < ⌊x⌋ + 1 := Int.lt_floor_add_one x
  unfold roundHalfEven
  split_ifs with ha hb hc
  · rw [abs_le]; constructor <;> push_cast <;> linarith
  · rw [abs_le]; constructor <;> push_cast <;> linarith
  · rw [abs_le]; constructor <;> push_cast <;> linarith
  · rw [abs_le]; constructor <;> push_cast <;> linarith

/-- Helper: rounding to two decimals lands within `1/200`. -/
theorem roundTo2_close (x : ℚ) : |roundTo2 x - x| ≤ 1/200 := by
  have h := roundHalfEven_close (x * 100)
  rw [abs_le] at h ⊢
  unfold roundTo2
  constructor <;> [linarith [h.1]; linarith [h.2]]

/-- C8: `calculate_attacks_per_second` rejects every non-positive duration
with the validation error (never a division by zero), and for every
positive duration returns `1000 / duration` rounded to two decimal places
(a multiple of `1/100` within `1/200` of the exact quotient); in
particular `500` maps to `2.00`. -/
theorem calculate_attacks_per_second_spec :
    (∀ ms : Int, ms ≤ 0 →
      calculate_attacks_per_second ms = .error "Attack duration must be positive")
    ∧ (∀ ms : Int, 0 < ms → ∃ r : ℚ,
        calculate_attacks_per_second ms = .ok r
        ∧ (∃ z : ℤ, r = (z : ℚ) / 100)
        ∧ |r - 1000 / (ms : ℚ)| ≤ 1 / 200)
    ∧ calculate_attacks_per_second 500 = .ok 2 := by
  refine ⟨fun ms h => by simp [calculate_attacks_per_second, h], fun ms h => ?_, ?_⟩
  · have hne : ¬ ms ≤ 0 := not_le.mpr h
    exact ⟨roundTo2 (1000 / (ms : ℚ)), by simp [calculate_attacks_per_second, hne],
      ⟨roundHalfEven (1000 / (ms : ℚ) * 100), rfl⟩, roundTo2_close _⟩
  · simp only [calculate_attacks_per_second, roundTo2, roundHalfEven]
    norm_num

/-- C8 witness: the theorem applied at durations `0` and `500`. -/
theorem calculate_attacks_per_second_spec_witness :
    calculate_attacks_per_second 0 = .error "Attack duration must be positive"
    ∧ ∃ r : ℚ, calculate_attacks_per_second 500 = .ok r
        ∧ (∃ z : ℤ, r = (z : ℚ) / 100)
        ∧ |r - 1000 / ((500 : Int) : ℚ)| ≤ 1 / 200 :=
  ⟨calculate_attacks_per_second_spec.1 0 (by decide),
    calculate_attacks_per_second_spec.2.1 500 (by decide)⟩

/-- C6 counterexample: the chunk serialization has a space after the
newline (`"\n Content: "`), so it is not exactly
`"Source: <metadata>\nContent: <text>"`. -/
theorem retrieve_serialization_counterexample :
    (retrieve (fun _ _ => [⟨"m", "t"⟩]) "q").1 ≠ "Source: m\nContent: t"
    ∧ (retrieve (fun _ _ => [⟨"m", "t"⟩]) "q").1 = "Source: m\n Content: t" := by
  exact ⟨by decide, rfl⟩

/-- C6 (amended): `retrieve` queries the store at `k = 15` only — two
stores agreeing at `k = 15` yield equal results — and serializes each
chunk as `"Source: <metadata>\n Content: <text>"` (with a space before
`Content:`), joined by blank lines. -/
theorem retrieve_spec (similarity_search : String → Nat → List Document) (query : String) :
    (retrieve similarity_search query).1 = String.intercalate "\n\n"
        ((similarity_search query 15).map
          (fun doc => "Source: " ++ doc.metadata ++ "\n Content: " ++ doc.page_content))
    ∧ (retrieve similarity_search query).2 = similarity_search query 15
    ∧ ∀ s2 : String → Nat → List Document,
        (∀ q, similarity_search q 15 = s2 q 15) →
        retrieve similarity_search query = retrieve s2 query := by
  refine ⟨rfl, rfl, fun s2 h => ?_⟩
  simp only [retrieve, h query]

/-- C6 witness: the theorem applied to a store that only answers `k = 15`. -/
theorem retrieve_spec_witness :
    retrieve (fun _ _ => [⟨"m", "t"⟩]) "q"
      = retrieve (fun _ k => if k = 15 then [⟨"m", "t"⟩] else []) "q" :=
  (retrieve_spec (fun _ _ => [⟨"m", "t"⟩]) "q").2.2 _ (fun _ => rfl)

/-- C5: the conversation filter keeps exactly the `human` and `system`
messages and the `ai` messages with no pending tool calls, as an
order-preserving sublist; every other message (in particular every `tool`
message and every tool-requesting `ai` message) is excluded. -/
theorem conversation_messages_spec (msgs : List Message) (m : Message) :
    (m ∈ conversation_messages msgs ↔
      m ∈ msgs ∧ (m.type = "human" ∨ m.type = "system"
        ∨ (m.type = "ai" ∧ m.tool_calls = [])))
    ∧ List.Sublist (conversation_messages msgs) msgs := by
  constructor
  · rw [conversation_messages, List.mem_filter]
    simp [List.isEmpty_iff, or_assoc]
  · exact List.filter_sublist msgs

/-- Helper: a prefix all of whose elements satisfy `p` is a prefix of the
`takeWhile p`. -/
theorem prefix_takeWhile_of_all {α : Type} (p : α → Bool) :
    ∀ (s l : List α), s <+: l → (∀ x ∈ s, p x = true) → s <+: l.takeWhile p := by
  intro s
  induction s with
  | nil => intro l _ _; exact List.nil_prefix
  | cons a s ih =>
    intro l hpre hall
    match l with
    | [] => exact absurd (List.prefix_nil.mp hpre) (by simp)
    | b :: l' =>
      rw [List.cons_prefix_cons] at hpre
      obtain ⟨rfl, hpre'⟩ := hpre
      rw [List.takeWhile_cons_of_pos (hall a (List.mem_cons_self a s))]
      exact List.cons_prefix_cons.mpr
        ⟨rfl, ih l' hpre' (fun x hx => hall x (List.mem_cons_of_mem a hx))⟩

/-- C4: the trailing-tool-window is the maximal all-`tool` suffix of the
message sequence, restored to original order, and `docs_content` joins its
contents with blank lines; on the spec's example sequence the window is
`[A, B]`, and appending a non-tool message empties the window. -/
theorem recent_tool_messages_spec (msgs : List Message) :
    (∀ m ∈ recent_tool_messages msgs, m.type = "tool")
    ∧ recent_tool_messages msgs <:+ msgs
    ∧ (∀ s : List Message, s <:+ msgs → (∀ m ∈ s, m.type = "tool") →
        s <:+ recent_tool_messages msgs)
    ∧ docs_content msgs
        = String.intercalate "\n\n" ((recent_tool_messages msgs).map (fun m => m.content))
    ∧ recent_tool_messages
        [⟨"human", "q", []⟩, ⟨"ai", "", [⟨"retrieve"⟩]⟩, ⟨"tool", "A", []⟩, ⟨"tool", "B", []⟩]
        = [⟨"tool", "A", []⟩, ⟨"tool", "B", []⟩]
    ∧ recent_tool_messages
        [⟨"human", "q", []⟩, ⟨"ai", "", [⟨"retrieve"⟩]⟩, ⟨"tool", "A", []⟩, ⟨"tool", "B", []⟩,
          ⟨"ai", "ans", []⟩]
        = [] := by
  refine ⟨?_, ?_, ?_, rfl, rfl, rfl⟩
  · intro m hm
    rw [recent_tool_messages, List.mem_reverse] at hm
    simpa using List.mem_takeWhile_imp hm
  · have h := List.takeWhile_prefix (l := msgs.reverse) (fun m => m.type == "tool")
    have h2 := List.reverse_suffix.mpr h
    rwa [List.reverse_reverse] at h2
  · intro s hs hall
    have h1 : s.reverse <+: msgs.reverse := List.reverse_prefix.mpr hs
    have h2 := prefix_takeWhile_of_all (fun m => m.type == "tool") s.reverse msgs.reverse h1
      (fun x hx => by simpa using hall x (List.mem_reverse.mp hx))
    have h3 := List.reverse_suffix.mpr h2
    rwa [List.reverse_reverse] at h3

/-- C4 witness: on the example sequence, `[A, B]` is an all-tool suffix,
so the theorem places it inside the window. -/
theorem recent_tool_messages_spec_witness :
    [(⟨"tool", "A", []⟩ : Message), ⟨"tool", "B", []⟩] <:+
      recent_tool_messages
        [⟨"human", "q", []⟩, ⟨"ai", "", [⟨"retrieve"⟩]⟩, ⟨"tool", "A", []⟩, ⟨"tool", "B", []⟩] :=
  (recent_tool_messages_spec _).2.2.1 _ ⟨[⟨"human", "q", []⟩, ⟨"ai", "", [⟨"retrieve"⟩]⟩], rfl⟩
    (by decide)

/-- Helper: `map_type` never returns the lowercase tag `"object"`. -/
theorem map_type_ne_object (t : String) : map_type t ≠ "object" := by
  unfold map_type
  split_ifs <;> decide

/-- Helper: `map_type` never returns the lowercase tag `"array"`. -/
theorem map_type_ne_array (t : String) : map_type t ≠ "array" := by
  unfold map_type
  split_ifs <;> decide

/-- Helper: `map_type` only ever returns one of the seven provider tags. -/
theorem map_type_cases (t : String) :
    map_type t = "STRING" ∨ map_type t = "INTEGER" ∨ map_type t = "NUMBER"
    ∨ map_type t = "BOOLEAN" ∨ map_type t = "ARRAY" ∨ map_type t = "OBJECT"
    ∨ map_type t = "TYPE_UNSPECIFIED" := by
  unfold map_type
  split_ifs <;> simp

/-- Helper: applying `map_type` to any of its own outputs yields
`TYPE_UNSPECIFIED`, because the outputs are the uppercase provider tags
which the lowercase lookup table does not contain. -/
theorem map_type_map_type (t : String) : map_type (map_type t) = "TYPE_UNSPECIFIED" := by
  rcases map_type_cases t with h | h | h | h | h | h | h <;> rw [h] <;> rfl

/-- Helper: on a node whose tag is neither `"object"` nor `"array"`,
`convert_schema` succeeds without recursing, only mapping the tag. -/
theorem convert_schema_upper (tag : String) (props : Option (List (String × SchemaTree)))
    (items : Option SchemaTree) (extra : List (String × String))
    (hobj : tag ≠ "object") (harr : tag ≠ "array") :
    convert_schema (.node (some tag) props items extra)
      = .ok (.node (some (map_type tag)) props items extra) := by
  simp [convert_schema, hobj, harr]

/-- Helper: a successful conversion yields a node whose tag is `map_type`
of the source node's tag. -/
theorem convert_schema_ok_shape (s t : SchemaTree) (h : convert_schema s = .ok t) :
    ∃ tag props items extra,
      s.typeTag = some tag ∧ t = .node (some (map_type tag)) props items extra := by
  match s with
  | .node none p i e => simp [convert_schema] at h
  | .node (some tag) p i e =>
    rw [convert_schema] at h
    split at h
    · exact absurd h (by simp)
    · split at h
      · exact absurd h (by simp)
      · exact ⟨tag, _, _, e, rfl, (Except.ok.injEq _ _).mp h.symm⟩

/-- C7 counterexample: converting the already-converted leaf
`{type: "string"}` does not reproduce the once-converted result — the
uppercase tag `STRING` is not in `map_type`'s table, so the reconversion
degrades the type to `TYPE_UNSPECIFIED`. -/
theorem convert_schema_idempotence_counterexample :
    convert_schema (.node (some "string") none none [])
      = .ok (.node (some "STRING") none none [])
    ∧ convert_schema (.node (some "STRING") none none [])
      = .ok (.node (some "TYPE_UNSPECIFIED") none none [])
    ∧ SchemaTree.node (some "TYPE_UNSPECIFIED") none none []
      ≠ SchemaTree.node (some "STRING") none none [] := by
  refine ⟨rfl, rfl, fun h => ?_⟩
  have h2 := congrArg SchemaTree.typeTag h
  rw [SchemaTree.typeTag, SchemaTree.typeTag, Option.some.injEq] at h2
  exact absurd h2 (by decide)

/-- C7 (amended): the conversion is not idempotent.  Re-converting a
converted tree always succeeds but replaces the type with
`TYPE_UNSPECIFIED` (the provider's uppercase tags are unknown to
`map_type`), so it changes every tree whose converted type is not already
`TYPE_UNSPECIFIED`; only from the second application onward is the
conversion a fixpoint. -/
theorem convert_schema_not_idempotent_amended (s t : SchemaTree)
    (h : convert_schema s = .ok t) :
    ∃ u, convert_schema t = .ok u
      ∧ u.typeTag = some "TYPE_UNSPECIFIED"
      ∧ convert_schema u = .ok u := by
  obtain ⟨tag, props, items, extra, -, rfl⟩ := convert_schema_ok_shape s t h
  refine ⟨.node (some (map_type (map_type tag))) props items extra,
    convert_schema_upper _ _ _ _ (map_type_ne_object tag) (map_type_ne_array tag), ?_, ?_⟩
  · rw [SchemaTree.typeTag, map_type_map_type]
  · rw [map_type_map_type]
    have h2 := convert_schema_upper "TYPE_UNSPECIFIED" props items extra
      (by decide) (by decide)
    rwa [show map_type "TYPE_UNSPECIFIED" = "TYPE_UNSPECIFIED" from rfl] at h2

/-- C7 witness: the amended theorem applied to the leaf `{type: "string"}`. -/
theorem convert_schema_not_idempotent_amended_witness :
    ∃ u, convert_schema (.node (some "STRING") none none []) = .ok u
      ∧ u.typeTag = some "TYPE_UNSPECIFIED"
      ∧ convert_schema u = .ok u :=
  convert_schema_not_idempotent_amended (.node (some "string") none none [])
    (.node (some "STRING") none none []) rfl

/-- C10: `dump_function_response` inspects only the first element of the
tool result's content list — appending further elements never changes the
result — and a first element that is not text-typed yields the assertion
failure rather than a parsed value. -/
theorem dump_function_response_first_element_only :
    (∀ (e : Bool) (c0 : ContentItem) (rest : List ContentItem),
      dump_function_response ⟨e, c0 :: rest⟩ = dump_function_response ⟨e, [c0]⟩)
    ∧ (∀ (c0 : ContentItem) (rest : List ContentItem), c0.type ≠ "text" →
      dump_function_response ⟨false, c0 :: rest⟩
        = .error (.assertionErr "Function res content must be a text content")) := by
  constructor
  · intro e c0 rest
    cases e <;> rfl
  · intro c0 rest h
    simp [dump_function_response, h]

/-- C10 witness: a non-text first element fails the assertion even though
a text element follows it. -/
theorem dump_function_response_first_element_only_witness :
    dump_function_response ⟨false, [⟨"image", "x"⟩, ⟨"text", "1"⟩]⟩
      = .error (.assertionErr "Function res content must be a text content") :=
  dump_function_response_first_element_only.2 ⟨"image", "x"⟩ [⟨"text", "1"⟩] (by decide)

/-- C3 counterexample: on a non-JSON tool payload the orchestrator fails
with the `ToolResponseNotJSON` message, which embeds the raw payload but
does not mention the tool name (`get_items`) anywhere. -/
theorem tool_name_not_in_error_counterexample :
    (ask_question_with_tools "q" [] exToolCallResponse exNoTextResponse
        exNonJsonToolRes).outcome
      = .notJsonFailure "Respone from function call was not valid JSON: oops not json"
    ∧ ¬ ("get_items".toList <:+:
        ("Respone from function call was not valid JSON: oops not json").toList) := by
  exact ⟨rfl, by decide⟩

/-- C3 (amended): for every payload that fails to parse as JSON, the
error carries the raw payload text inside its message — but only the
payload; `dump_function_response` never receives the tool name. -/
theorem dump_not_json_message_spec (p : String) (h : jsonLoads p = none) :
    dump_function_response ⟨false, [⟨"text", p⟩]⟩
      = .error (.notJson ("Respone from function call was not valid JSON: " ++ p))
    ∧ p.toList <:+: ("Respone from function call was not valid JSON: " ++ p).toList := by
  constructor
  · simp [dump_function_response, h]
  · have hs : p.toList <:+ ("Respone from function call was not valid JSON: " ++ p).toList := by
      have he : ("Respone from function call was not valid JSON: " ++ p).toList
          = ("Respone from function call was not valid JSON: ").toList ++ p.toList := rfl
      rw [he]
      exact List.suffix_append _ _
    exact hs.isInfix

/-- C3 witness: the amended theorem applied to the payload
`"oops not json"`. -/
theorem dump_not_json_message_spec_witness :
    dump_function_response ⟨false, [⟨"text", "oops not json"⟩]⟩
      = .error (.notJson ("Respone from function call was not valid JSON: " ++ "oops not json"))
    ∧ ("oops not json").toList <:+:
        ("Respone from function call was not valid JSON: " ++ "oops not json").toList :=
  dump_not_json_message_spec "oops not json" rfl

/-- C2: the config `query_model` builds for `client.models.generate_content`
carries no tools — the `tools=[types.Tool(...)]` line is commented out —
so the function declarations passed into `query_model` are dropped and no
model invocation receives them (the contents pass through unchanged). -/
theorem query_model_drops_declarations
    (content : List GContent) (function_declarations : List FunctionDeclaration) :
    (query_model content function_declarations).config.tools = none
    ∧ (query_model content function_declarations).contents = content :=
  ⟨rfl, rfl⟩

/-- Helper: the orchestrator's tool-invocation list is empty or the one
recorded call, whose args passed the truthiness assertion. -/
theorem ask_invocations_shape (question : String) (declarations : List FunctionDeclaration)
    (r1 r2 : GenResponse) (toolRes : CallToolResult) :
    (ask_question_with_tools question declarations r1 r2 toolRes).toolInvocations = []
    ∨ ∃ fc : FunctionCall, truthyArgs fc.args = true
        ∧ (ask_question_with_tools question declarations r1 r2 toolRes).toolInvocations
            = [(fc.name.getD "", fc.args.getD [])] := by
  unfold ask_question_with_tools
  dsimp only
  repeat' split
  all_goals first
    | (left; rfl)
    | (right; exact ⟨_, by assumption, rfl⟩)

/-- Helper: truthy args unwrap to a non-empty list. -/
theorem truthyArgs_getD_ne_nil {o : Option (List (String × Json))}
    (h : truthyArgs o = true) : o.getD [] ≠ [] := by
  cases o with
  | none => simp [truthyArgs] at h
  | some l =>
    cases l with
    | nil => simp [truthyArgs] at h
    | cons a as => simp

/-- C1: the orchestrator executes at most one tool call for any model
behavior, and when the second model call produces no text — whatever else
it contains, including a further tool-call request — the request ends in
the typed HTTP 500 failure with exactly the one already-performed tool
execution. -/
theorem single_tool_execution_bound (question : String)
    (declarations : List FunctionDeclaration) (r1 r2 : GenResponse)
    (toolRes : CallToolResult) :
    (ask_question_with_tools question declarations r1 r2 toolRes).toolInvocations.length ≤ 1
    ∧ ((ask_question_with_tools question declarations r1 r2 toolRes).requests.length = 2 →
        truthyText r2.text = false →
        (ask_question_with_tools question declarations r1 r2 toolRes).outcome
            = .noTextFailure "Ai response did not have text nor function calls"
        ∧ (ask_question_with_tools question declarations r1 r2 toolRes).toolInvocations.length
            = 1) := by
  constructor
  · rcases ask_invocations_shape question declarations r1 r2 toolRes with h | ⟨fc, -, h⟩ <;>
      simp [h]
  · intro h2 hf
    unfold ask_question_with_tools at h2 ⊢
    dsimp only at h2 ⊢
    repeat' split at h2 <;> try simp_all

/-- C1 witness: a run that reaches the second model call with a textless
second response ends in the typed failure after exactly one tool call. -/
theorem single_tool_execution_bound_witness :
    (ask_question_with_tools "q" [] exToolCallResponse exNoTextResponse
        exJsonToolRes).outcome
      = .noTextFailure "Ai response did not have text nor function calls"
    ∧ (ask_question_with_tools "q" [] exToolCallResponse exNoTextResponse
        exJsonToolRes).toolInvocations.length = 1 :=
  (single_tool_execution_bound "q" [] exToolCallResponse exNoTextResponse exJsonToolRes).2
    rfl rfl

/-- C9: every tool invocation the orchestrator performs carries a
non-empty args mapping, and a single-part function-call response with a
truthy name but empty-or-missing args fails the args assertion before any
tool invocation. -/
theorem call_tool_nonempty_args (question : String)
    (declarations : List FunctionDeclaration) (r1 r2 : GenResponse)
    (toolRes : CallToolResult) :
    (∀ inv ∈ (ask_question_with_tools question declarations r1 r2 toolRes).toolInvocations,
        inv.2 ≠ [])
    ∧ (∀ (name : String) (args : Option (List (String × Json))),
        truthyText r1.text = false →
        r1.candidates = [⟨some ⟨some [⟨some ⟨some name, args⟩⟩]⟩⟩] →
        truthyText (some name) = true →
        (args = none ∨ args = some []) →
        (ask_question_with_tools question declarations r1 r2 toolRes).outcome
            = .assertionFailure "Function call must have name and args"
        ∧ (ask_question_with_tools question declarations r1 r2 toolRes).toolInvocations
            = []) := by
  constructor
  · rcases ask_invocations_shape question declarations r1 r2 toolRes with h | ⟨fc, hta, h⟩
    · simp [h]
    · rw [h]
      intro inv hinv
      rw [List.mem_singleton] at hinv
      subst hinv
      exact truthyArgs_getD_ne_nil hta
  · intro name args ht hc hn hargs
    obtain ⟨t, cands⟩ := r1
    simp only at hc
    subst hc
    simp only at ht
    have hargs2 : truthyArgs args = false := by
      rcases hargs with rfl | rfl <;> rfl
    unfold ask_question_with_tools
    dsimp only
    simp [ht, hn, hargs2]

/-- C9 witness: a function-call response naming `get_items` with an empty
args dict fails the assertion with no tool invocation. -/
theorem call_tool_nonempty_args_witness :
    (ask_question_with_tools "q" [] exEmptyArgsResponse exNoTextResponse
        exJsonToolRes).outcome
      = .assertionFailure "Function call must have name and args"
    ∧ (ask_question_with_tools "q" [] exEmptyArgsResponse exNoTextResponse
        exJsonToolRes).toolInvocations = [] :=
  (call_tool_nonempty_args "q" [] exEmptyArgsResponse exNoTextResponse exJsonToolRes).2
    "get_items" (some []) rfl rfl rfl (Or.inr rfl)
